import Mathlib

/-!
Shallow embedding of `windows_font_changer/font_manager.py` (class `FontManager`).

The registry is modelled as two value stores (association lists from value
name to string data), one for the Fonts key and one for the FontSubstitutes
key, plus the backup file slot.  Python exceptions raised by `winreg` calls
and by `Path.write_text` are modelled as injected faults: a `Faults` record
says, for each `winreg.OpenKey` call site and for the backup-file write,
whether that call raises and which exception it raises.  When an open
succeeds, the value reads/writes inside the `with` block are modelled as
pure association-list operations (they do not raise in the model).  Each
manager method is then a total Lean function following the Python control
flow, with `try`/`except` turned into case analysis on the injected faults.
-/

namespace FontChanger

/-- Python exception classes relevant to the code: `PermissionError`,
`FileNotFoundError`, and any other `Exception`; each carries its `str(e)`. -/
inductive PyExn where
  | permissionError (msg : String)
  | fileNotFoundError (msg : String)
  | otherError (msg : String)
  deriving DecidableEq, Repr

/-- Python `str(e)` on the modelled exceptions. -/
def pyStr : PyExn → String
  | .permissionError m => m
  | .fileNotFoundError m => m
  | .otherError m => m

/-- Whether the exception is a `PermissionError` (matched by the
`except PermissionError` clauses). -/
def isPerm : PyExn → Bool
  | .permissionError _ => true
  | _ => false

/-- A text file on disk: its content and the encoding it was written with. -/
structure FileDoc where
  content : String
  encoding : String
  deriving DecidableEq, Repr

/-- The system state the manager touches: the values under the Fonts key,
the values under the FontSubstitutes key, and the fixed backup file. -/
structure SysState where
  fontsKey : List (String × String)
  substKey : List (String × String)
  backupFile : Option FileDoc
  deriving DecidableEq, Repr

/-- Injected faults: for each `winreg.OpenKey` call site and for the backup
file write, `none` means the call succeeds and `some e` means it raises `e`. -/
structure Faults where
  openFontsRead : Option PyExn
  openFontsWrite : Option PyExn
  openSubstRead : Option PyExn
  openSubstWrite : Option PyExn
  fileWrite : Option PyExn
  deriving DecidableEq, Repr

/-- No injected fault anywhere: every registry open and file write succeeds. -/
def noFaults : Faults := ⟨none, none, none, none, none⟩

/-- Lookup in a value store, modelling `winreg.QueryValueEx`. -/
def lookupValue : List (String × String) → String → Option String
  | [], _ => none
  | (n, v) :: rest, m => if n = m then some v else lookupValue rest m

/-- Model of `winreg.SetValueEx`: overwrite the value if the name exists, else append. -/
def setValue : List (String × String) → String → String → List (String × String)
  | [], n, v => [(n, v)]
  | (m, x) :: rest, n, v =>
      if m = n then (m, v) :: rest else (m, x) :: setValue rest n v

/-- Model of `winreg.DeleteValue`: remove the value, raising `FileNotFoundError` when
the value name is absent. -/
def deleteValue : List (String × String) → String → Except PyExn (List (String × String))
  | [], _ => .error (.fileNotFoundError "The system cannot find the file specified")
  | (m, x) :: rest, n =>
      if m = n then .ok rest
      else (deleteValue rest n).map (fun r => (m, x) :: r)

/-- Does the character list start with the given pattern? -/
def charsStart : List Char → List Char → Bool
  | _, [] => true
  | [], _ :: _ => false
  | a :: as, b :: bs => a == b && charsStart as bs

/-- Does the character list contain the pattern as a contiguous run? -/
def charsHasSub : List Char → List Char → Bool
  | [], pat => charsStart [] pat
  | a :: rest, pat => charsStart (a :: rest) pat || charsHasSub rest pat

/-- Python's `pat in s` substring test on strings. -/
def strContains (s pat : String) : Bool :=
  charsHasSub s.toList pat.toList

/-- Constant `FontManager.FONTS_KEY_PATH`. -/
def FONTS_KEY_PATH : String := "SOFTWARE\\Microsoft\\Windows NT\\CurrentVersion\\Fonts"

/-- Constant `FontManager.FONT_SUBSTITUTES_KEY_PATH`. -/
def FONT_SUBSTITUTES_KEY_PATH : String :=
  "SOFTWARE\\Microsoft\\Windows NT\\CurrentVersion\\FontSubstitutes"

/-- Table `FontManager.SEGOE_UI_FONTS`, in source (= Python dict insertion) order. -/
def SEGOE_UI_FONTS : List (String × String) :=
  [("Segoe UI (TrueType)", "segoeui.ttf"),
   ("Segoe UI Bold (TrueType)", "segoeuib.ttf"),
   ("Segoe UI Bold Italic (TrueType)", "segoeuiz.ttf"),
   ("Segoe UI Italic (TrueType)", "segoeuii.ttf"),
   ("Segoe UI Light (TrueType)", "segoeuil.ttf"),
   ("Segoe UI Semibold (TrueType)", "seguisb.ttf"),
   ("Segoe UI Symbol (TrueType)", "seguisym.ttf"),
   ("Segoe UI Black (TrueType)", "seguibl.ttf"),
   ("Segoe UI Black Italic (TrueType)", "seguibli.ttf"),
   ("Segoe UI Emoji (TrueType)", "seguiemj.ttf"),
   ("Segoe UI Historic (TrueType)", "seguihis.ttf"),
   ("Segoe UI Light Italic (TrueType)", "seguili.ttf"),
   ("Segoe UI Semibold Italic (TrueType)", "seguisbi.ttf"),
   ("Segoe UI Semilight (TrueType)", "segoeuisl.ttf"),
   ("Segoe UI Semilight Italic (TrueType)", "seguisli.ttf"),
   ("Segoe MDL2 Assets (TrueType)", "segmdl2.ttf"),
   ("Segoe Print (TrueType)", "segoepr.ttf"),
   ("Segoe Print Bold (TrueType)", "segoeprb.ttf"),
   ("Segoe Script (TrueType)", "segoesc.ttf"),
   ("Segoe Script Bold (TrueType)", "segoescb.ttf")]

/-- Model of `FontManager.get_current_font`: open the FontSubstitutes key for reading
(outer `try`, `except Exception: return None`), then query the `"Segoe UI"`
value (`except FileNotFoundError: return None`). -/
def get_current_font (st : SysState) (fl : Faults) : Option String :=
  match fl.openSubstRead with
  | some _ => none
  | none =>
    match lookupValue st.substKey "Segoe UI" with
    | some v => some v
    | none => none

/-- The list of lines `FontManager.backup_current_settings` builds
(`backup_content` in the Python source).  The static table entries are
appended inside the `try` block, so they appear only when the Fonts key
opens for reading; the open failure itself is swallowed (`except: pass`).
The final line mirrors Python truthiness of `if current_font:` — a `None`
or empty-string current font both produce the delete directive. -/
def backupContent (st : SysState) (fl : Faults) : List String :=
  ["Windows Registry Editor Version 5.00", ""]
  ++ ["[HKEY_LOCAL_MACHINE\\" ++ FONTS_KEY_PATH ++ "]"]
  ++ (match fl.openFontsRead with
      | some _ => []
      | none => SEGOE_UI_FONTS.map (fun p => "\"" ++ p.1 ++ "\"=\"" ++ p.2 ++ "\""))
  ++ [""]
  ++ ["[HKEY_LOCAL_MACHINE\\" ++ FONT_SUBSTITUTES_KEY_PATH ++ "]"]
  ++ [match get_current_font st fl with
      | some f => if f = "" then "\"Segoe UI\"=-" else "\"Segoe UI\"=\"" ++ f ++ "\""
      | none => "\"Segoe UI\"=-"]

/-- Model of `FontManager.backup_current_settings`: build the backup lines and write
them (joined with newlines, UTF-16LE) to the fixed backup file.  Only the
final `write_text` can raise, and the raise propagates to the caller. -/
def backup_current_settings (st : SysState) (fl : Faults) : Except PyExn SysState :=
  match fl.fileWrite with
  | some e => .error e
  | none =>
      let doc : FileDoc := ⟨String.intercalate "\n" (backupContent st fl), "utf-16-le"⟩
      .ok { st with backupFile := some doc }

/-- The `except PermissionError` / `except Exception as e` tail shared by
`change_font` and `restore_default_font`; `ctx` is the f-string text before
`str(e)`. -/
def handleExn (ctx : String) (e : PyExn) : Bool × String :=
  match e with
  | .permissionError _ => (false, "Permission denied. Please run as administrator.")
  | e => (false, ctx ++ pyStr e)

/-- Model of `FontManager.change_font`: backup first, then clear every
`SEGOE_UI_FONTS` entry whose display name contains `"Segoe UI"`, then set
the `"Segoe UI"` substitution to `font_name`.  Any raise lands in the
`except` clauses; mutations already performed stay in place. -/
def change_font (font_name : String) (st : SysState) (fl : Faults) :
    (Bool × String) × SysState :=
  match backup_current_settings st fl with
  | .error e => (handleExn "Error changing font: " e, st)
  | .ok st1 =>
    match fl.openFontsWrite with
    | some e => (handleExn "Error changing font: " e, st1)
    | none =>
      let cleared :=
        SEGOE_UI_FONTS.foldl
          (fun vals p =>
            if strContains p.1 "Segoe UI" then setValue vals p.1 "" else vals)
          st1.fontsKey
      let st2 := { st1 with fontsKey := cleared }
      match fl.openSubstWrite with
      | some e => (handleExn "Error changing font: " e, st2)
      | none =>
        let st3 := { st2 with substKey := setValue st2.substKey "Segoe UI" font_name }
        ((true, "Font changed to " ++ font_name
                  ++ ". Please restart Windows to apply changes."), st3)

/-- Model of `FontManager.restore_default_font`: rewrite every `SEGOE_UI_FONTS`
entry back to its file name, then delete the `"Segoe UI"` substitution,
treating `FileNotFoundError` from the deletion as success (`pass`). -/
def restore_default_font (st : SysState) (fl : Faults) :
    (Bool × String) × SysState :=
  match fl.openFontsWrite with
  | some e => (handleExn "Error restoring default font: " e, st)
  | none =>
    let restored := SEGOE_UI_FONTS.foldl (fun vals p => setValue vals p.1 p.2) st.fontsKey
    let st1 := { st with fontsKey := restored }
    match fl.openSubstWrite with
    | some e => (handleExn "Error restoring default font: " e, st1)
    | none =>
      match deleteValue st1.substKey "Segoe UI" with
      | .ok newVals =>
          ((true, "Default font restored. Please restart Windows to apply changes."),
           { st1 with substKey := newVals })
      | .error (.fileNotFoundError _) =>
          ((true, "Default font restored. Please restart Windows to apply changes."),
           st1)
      | .error e => (handleExn "Error restoring default font: " e, st1)

/-- The list of lines `FontManager.create_reg_file` builds (`reg_content`
in the Python source): header, cleared entries for the `"Segoe UI"`-named
mappings, and the substitution line for the requested font. -/
def regFileLines (font_name : String) : List String :=
  ["Windows Registry Editor Version 5.00", "",
   "[HKEY_LOCAL_MACHINE\\" ++ FONTS_KEY_PATH ++ "]"]
  ++ (SEGOE_UI_FONTS.filter (fun p => strContains p.1 "Segoe UI")).map
       (fun p => "\"" ++ p.1 ++ "\"=\"\"")
  ++ ["", "[HKEY_LOCAL_MACHINE\\" ++ FONT_SUBSTITUTES_KEY_PATH ++ "]",
      "\"Segoe UI\"=\"" ++ font_name ++ "\""]

/-- Model of `FontManager.create_reg_file`: write the generated document (UTF-16LE)
to the caller-supplied path, touching no registry state.  The produced
file is returned alongside the unchanged system state. -/
def create_reg_file (font_name : String) (st : SysState) : FileDoc × SysState :=
  (⟨String.intercalate "\n" (regFileLines font_name), "utf-16-le"⟩, st)

theorem lookupValue_setValue_self (vals : List (String × String)) (n v : String) :
    lookupValue (setValue vals n v) n = some v := by
  induction vals with
  | nil => simp [setValue, lookupValue]
  | cons p rest ih =>
    obtain ⟨m, x⟩ := p
    by_cases h : m = n <;> simp [setValue, lookupValue, h, ih]

theorem lookupValue_setValue_ne (vals : List (String × String)) (n m v : String)
    (h : n ≠ m) : lookupValue (setValue vals n v) m = lookupValue vals m := by
  induction vals with
  | nil => simp [setValue, lookupValue, h]
  | cons p rest ih =>
    obtain ⟨k, x⟩ := p
    by_cases hk : k = n
    · subst hk
      simp [setValue, lookupValue, h]
    · simp only [setValue, if_neg hk, lookupValue]
      by_cases hm : k = m <;> simp [hm, ih]

theorem setValue_eq_of_lookup (vals : List (String × String)) (n v : String)
    (h : lookupValue vals n = some v) : setValue vals n v = vals := by
  induction vals with
  | nil => simp [lookupValue] at h
  | cons p rest ih =>
    obtain ⟨k, x⟩ := p
    by_cases hk : k = n
    · subst hk
      simp [lookupValue] at h
      simp [setValue, h]
    · simp [lookupValue, hk] at h
      simp [setValue, hk, ih h]

theorem deleteValue_of_lookup_none (vals : List (String × String)) (n : String)
    (h : lookupValue vals n = none) :
    deleteValue vals n =
      .error (PyExn.fileNotFoundError "The system cannot find the file specified") := by
  induction vals with
  | nil => rfl
  | cons p rest ih =>
    obtain ⟨k, x⟩ := p
    by_cases hk : k = n
    · simp [lookupValue, hk] at h
    · simp [lookupValue, hk] at h
      simp [deleteValue, hk, ih h, Except.map]

/-- One step of the value-setting loops: set `p.1` to `g p` when `c p` holds. -/
def condSet (c : String × String → Bool) (g : String × String → String)
    (vals : List (String × String)) (p : String × String) : List (String × String) :=
  if c p then setValue vals p.1 (g p) else vals

theorem lookup_foldl_condSet_of_not_mem (c : String × String → Bool)
    (g : String × String → String) (entries : List (String × String))
    (vals : List (String × String)) (n : String)
    (h : n ∉ entries.map Prod.fst) :
    lookupValue (entries.foldl (condSet c g) vals) n = lookupValue vals n := by
  induction entries generalizing vals with
  | nil => rfl
  | cons p rest ih =>
    simp only [List.map_cons, List.mem_cons] at h
    push_neg at h
    simp only [List.foldl_cons]
    rw [ih (condSet c g vals p) h.2]
    unfold condSet
    by_cases hc : c p
    · simp [hc, lookupValue_setValue_ne vals p.1 n (g p) (Ne.symm h.1)]
    · simp [hc]

theorem lookup_foldl_condSet_of_mem (c : String × String → Bool)
    (g : String × String → String) (entries : List (String × String))
    (vals : List (String × String)) (p : String × String)
    (hnd : (entries.map Prod.fst).Nodup) (hp : p ∈ entries) (hc : c p = true) :
    lookupValue (entries.foldl (condSet c g) vals) p.1 = some (g p) := by
  induction entries generalizing vals with
  | nil => simp at hp
  | cons q rest ih =>
    simp only [List.map_cons, List.nodup_cons] at hnd
    simp only [List.foldl_cons]
    rcases List.mem_cons.mp hp with hq | hmem
    · subst hq
      rw [lookup_foldl_condSet_of_not_mem c g rest (condSet c g vals p) p.1 hnd.1]
      simp [condSet, hc, lookupValue_setValue_self]
    · exact ih (condSet c g vals q) hnd.2 hmem

theorem foldl_condSet_id (c : String × String → Bool)
    (g : String × String → String) (entries : List (String × String))
    (vals : List (String × String))
    (h : ∀ p ∈ entries, c p = true → lookupValue vals p.1 = some (g p)) :
    entries.foldl (condSet c g) vals = vals := by
  induction entries with
  | nil => rfl
  | cons p rest ih =>
    simp only [List.foldl_cons]
    have hstep : condSet c g vals p = vals := by
      unfold condSet
      by_cases hc : c p
      · rw [if_pos hc]
        exact setValue_eq_of_lookup vals p.1 (g p) (h p (List.mem_cons_self p rest) hc)
      · rw [if_neg hc]
    rw [hstep]
    exact ih (fun q hq hcq => h q (List.mem_cons_of_mem p hq) hcq)

theorem charsStart_refl (l : List Char) : charsStart l l = true := by
  induction l with
  | nil => rfl
  | cons a rest ih => simp [charsStart, ih]

theorem charsHasSub_append (xs ys : List Char) : charsHasSub (xs ++ ys) ys = true := by
  induction xs with
  | nil =>
    cases ys with
    | nil => rfl
    | cons a rest => simp [charsHasSub, charsStart_refl]
  | cons a rest ih => simp [charsHasSub, ih]

theorem strContains_append_right (a b : String) : strContains (a ++ b) b = true := by
  unfold strContains
  have : (a ++ b).toList = a.toList ++ b.toList := by
    simp [String.toList, String.data_append]
  rw [this]
  exact charsHasSub_append a.toList b.toList


theorem segoe_keys_nodup : (SEGOE_UI_FONTS.map Prod.fst).Nodup := by decide

theorem handleExn_fst (ctx : String) (e : PyExn) : (handleExn ctx e).1 = false := by
  cases e <;> rfl

theorem foldl_clear_eq (entries vals : List (String × String)) :
    entries.foldl
        (fun vals p => if strContains p.1 "Segoe UI" then setValue vals p.1 "" else vals) vals
      = entries.foldl (condSet (fun p => strContains p.1 "Segoe UI") (fun _ => "")) vals := rfl

theorem foldl_restore_eq (entries vals : List (String × String)) :
    entries.foldl (fun vals p => setValue vals p.1 p.2) vals
      = entries.foldl (condSet (fun _ => true) (fun p => p.2)) vals := rfl

theorem change_font_noFaults_eq (f : String) (st : SysState) :
    change_font f st noFaults =
      ((true, "Font changed to " ++ f ++ ". Please restart Windows to apply changes."),
       { fontsKey := SEGOE_UI_FONTS.foldl
           (condSet (fun p => strContains p.1 "Segoe UI") (fun _ => "")) st.fontsKey,
         substKey := setValue st.substKey "Segoe UI" f,
         backupFile := some ⟨String.intercalate "\n" (backupContent st noFaults), "utf-16-le"⟩ }) := by
  simp only [change_font, backup_current_settings, noFaults, foldl_clear_eq]

/-- Claim C1: `change_font` takes a fresh backup first; when the backup write
fails nothing is mutated and a failure result is returned; when every step
succeeds the backup of the pre-change state is on disk, every mapping-table
entry whose display name contains `"Segoe UI"` holds the empty string, the
`"Segoe UI"` substitution holds the requested font, and the returned message
names the font and asks for a restart. -/
theorem change_font_backup_first_then_mutates (f : String) (st : SysState) (fl : Faults) :
    (∀ e : PyExn, fl.fileWrite = some e →
        (change_font f st fl).2 = st ∧ (change_font f st fl).1.1 = false) ∧
    ((change_font f st noFaults).1
        = (true, "Font changed to " ++ f ++ ". Please restart Windows to apply changes.") ∧
     (change_font f st noFaults).2.backupFile
        = some ⟨String.intercalate "\n" (backupContent st noFaults), "utf-16-le"⟩ ∧
     (∀ p ∈ SEGOE_UI_FONTS, strContains p.1 "Segoe UI" = true →
        lookupValue (change_font f st noFaults).2.fontsKey p.1 = some "") ∧
     lookupValue (change_font f st noFaults).2.substKey "Segoe UI" = some f) := by
  constructor
  · intro e he
    unfold change_font backup_current_settings
    rw [he]
    exact ⟨rfl, handleExn_fst _ e⟩
  · rw [change_font_noFaults_eq]
    refine ⟨rfl, rfl, ?_, ?_⟩
    · intro p hp hc
      have hres := lookup_foldl_condSet_of_mem (fun q => strContains q.1 "Segoe UI")
        (fun _ => "") SEGOE_UI_FONTS st.fontsKey p segoe_keys_nodup hp hc
      simpa using hres
    · simpa using lookupValue_setValue_self st.substKey "Segoe UI" f

/-- Witness for C1 at concrete inputs. -/
theorem change_font_backup_first_then_mutates_witness :
    (change_font "Arial" ⟨[("Segoe UI (TrueType)", "segoeui.ttf")], [], none⟩
        ⟨none, none, none, none, some (PyExn.otherError "disk full")⟩).2
      = ⟨[("Segoe UI (TrueType)", "segoeui.ttf")], [], none⟩ ∧
    lookupValue
      (change_font "Arial" ⟨[("Segoe UI (TrueType)", "segoeui.ttf")], [], none⟩ noFaults).2.substKey
      "Segoe UI" = some "Arial" ∧
    lookupValue
      (change_font "Arial" ⟨[("Segoe UI (TrueType)", "segoeui.ttf")], [], none⟩ noFaults).2.fontsKey
      "Segoe UI (TrueType)" = some "" :=
  ⟨((change_font_backup_first_then_mutates "Arial"
      ⟨[("Segoe UI (TrueType)", "segoeui.ttf")], [], none⟩
      ⟨none, none, none, none, some (PyExn.otherError "disk full")⟩).1
      (PyExn.otherError "disk full") rfl).1,
   (change_font_backup_first_then_mutates "Arial"
      ⟨[("Segoe UI (TrueType)", "segoeui.ttf")], [], none⟩ noFaults).2.2.2.2,
   (change_font_backup_first_then_mutates "Arial"
      ⟨[("Segoe UI (TrueType)", "segoeui.ttf")], [], none⟩ noFaults).2.2.2.1
      ("Segoe UI (TrueType)", "segoeui.ttf") (by decide) (by decide)⟩


/-- Claim C2 counterexample: when opening the Fonts key for reading fails,
the mapping-table entry lines are NOT in the backup document. -/
theorem backup_entries_absent_on_open_failure :
    "\"Segoe UI (TrueType)\"=\"segoeui.ttf\"" ∉
      backupContent ⟨[("Segoe UI (TrueType)", "segoeui.ttf")], [], none⟩
        ⟨some (PyExn.otherError "Registry error"), none, none, none, none⟩ := by
  decide

/-- Claim C2 (amended): the mapping-table entries come from static
configuration (never from the live Fonts key contents) and are emitted
whenever the Fonts key opens for reading; even when that open fails, the
header, the substitution section and the file write are still produced. -/
theorem backup_table_from_static_config (st : SysState) (fl : Faults) :
    (fl.openFontsRead = none →
       ∀ p ∈ SEGOE_UI_FONTS,
         ("\"" ++ p.1 ++ "\"=\"" ++ p.2 ++ "\"") ∈ backupContent st fl) ∧
    (∀ fk bf, backupContent ⟨fk, st.substKey, bf⟩ fl = backupContent st fl) ∧
    ("Windows Registry Editor Version 5.00" ∈ backupContent st fl) ∧
    (("[HKEY_LOCAL_MACHINE\\" ++ FONT_SUBSTITUTES_KEY_PATH ++ "]") ∈ backupContent st fl) ∧
    (fl.fileWrite = none →
       backup_current_settings st fl
         = .ok { st with
             backupFile := some ⟨String.intercalate "\n" (backupContent st fl), "utf-16-le"⟩ }) := by
  refine ⟨?_, ?_, ?_, ?_, ?_⟩
  · intro h p hp
    simp only [backupContent, h, List.mem_append, List.mem_map, List.mem_cons]
    exact Or.inl (Or.inl (Or.inl (Or.inr ⟨p, hp, rfl⟩)))
  · intro fk bf
    rfl
  · simp [backupContent]
  · simp [backupContent]
  · intro h
    unfold backup_current_settings
    rw [h]

/-- Witness for C2 at concrete inputs. -/
theorem backup_table_from_static_config_witness :
    ("\"Segoe UI (TrueType)\"=\"segoeui.ttf\"" ∈
       backupContent ⟨[], [], none⟩ noFaults) ∧
    backup_current_settings ⟨[], [], none⟩ noFaults
      = .ok ⟨[], [],
          some ⟨String.intercalate "\n" (backupContent ⟨[], [], none⟩ noFaults), "utf-16-le"⟩⟩ :=
  ⟨(backup_table_from_static_config ⟨[], [], none⟩ noFaults).1 rfl
      ("Segoe UI (TrueType)", "segoeui.ttf") (by decide),
   (backup_table_from_static_config ⟨[], [], none⟩ noFaults).2.2.2.2 rfl⟩

/-- Claim C3: `get_current_font` is total (it never raises); any failure —
injected open failure or absent value — yields `none`, identically to "no
override configured", and a present value is returned as the override. -/
theorem get_current_font_total_spec (st : SysState) (fl : Faults) :
    (fl.openSubstRead = none →
        get_current_font st fl = lookupValue st.substKey "Segoe UI") ∧
    (∀ e : PyExn, fl.openSubstRead = some e → get_current_font st fl = none) := by
  constructor
  · intro h
    unfold get_current_font
    rw [h]
    cases lookupValue st.substKey "Segoe UI" <;> rfl
  · intro e he
    unfold get_current_font
    rw [he]

/-- Witness for C3 at concrete inputs. -/
theorem get_current_font_total_spec_witness :
    get_current_font ⟨[], [("Segoe UI", "Arial")], none⟩ noFaults = some "Arial" ∧
    get_current_font ⟨[], [("Segoe UI", "Arial")], none⟩
        ⟨none, none, some (PyExn.permissionError "denied"), none, none⟩ = none :=
  ⟨by
    rw [(get_current_font_total_spec ⟨[], [("Segoe UI", "Arial")], none⟩ noFaults).1 rfl]
    decide,
   (get_current_font_total_spec ⟨[], [("Segoe UI", "Arial")], none⟩
      ⟨none, none, some (PyExn.permissionError "denied"), none, none⟩).2
      (PyExn.permissionError "denied") rfl⟩


theorem restore_noFaults_eq_of_absent (st : SysState)
    (h : lookupValue st.substKey "Segoe UI" = none) :
    restore_default_font st noFaults =
      ((true, "Default font restored. Please restart Windows to apply changes."),
       { st with
         fontsKey := SEGOE_UI_FONTS.foldl (condSet (fun _ => true) (fun p => p.2)) st.fontsKey }) := by
  simp only [restore_default_font, noFaults, foldl_restore_eq]
  rw [deleteValue_of_lookup_none _ _ h]

/-- Claim C4: with no override configured, `restore_default_font` succeeds
(deleting the absent value is treated as success), rewrites every mapping
entry back to its static file name, leaves the substitution store unchanged,
and running it again changes nothing (idempotence). -/
theorem restore_default_succeeds_without_override (st : SysState)
    (h : lookupValue st.substKey "Segoe UI" = none) :
    (restore_default_font st noFaults).1
      = (true, "Default font restored. Please restart Windows to apply changes.") ∧
    (restore_default_font st noFaults).2.substKey = st.substKey ∧
    (∀ p ∈ SEGOE_UI_FONTS,
       lookupValue (restore_default_font st noFaults).2.fontsKey p.1 = some p.2) ∧
    restore_default_font (restore_default_font st noFaults).2 noFaults
      = restore_default_font st noFaults := by
  have hlook : ∀ p ∈ SEGOE_UI_FONTS,
      lookupValue
        (SEGOE_UI_FONTS.foldl (condSet (fun _ => true) (fun p => p.2)) st.fontsKey) p.1
      = some p.2 := by
    intro p hp
    exact lookup_foldl_condSet_of_mem (fun _ => true) (fun q => q.2)
      SEGOE_UI_FONTS st.fontsKey p segoe_keys_nodup hp rfl
  rw [restore_noFaults_eq_of_absent st h]
  refine ⟨rfl, rfl, ?_, ?_⟩
  · intro p hp
    simpa using hlook p hp
  · rw [restore_noFaults_eq_of_absent _ (by simpa using h)]
    have hid : SEGOE_UI_FONTS.foldl (condSet (fun _ => true) (fun p => p.2))
        (SEGOE_UI_FONTS.foldl (condSet (fun _ => true) (fun p => p.2)) st.fontsKey)
        = SEGOE_UI_FONTS.foldl (condSet (fun _ => true) (fun p => p.2)) st.fontsKey :=
      foldl_condSet_id _ _ SEGOE_UI_FONTS _ (fun p hp _ => hlook p hp)
    simp [hid]

/-- Witness for C4 at concrete inputs. -/
theorem restore_default_succeeds_without_override_witness :
    (restore_default_font ⟨[("Segoe UI (TrueType)", "")], [], none⟩ noFaults).1
      = (true, "Default font restored. Please restart Windows to apply changes.") ∧
    lookupValue
      (restore_default_font ⟨[("Segoe UI (TrueType)", "")], [], none⟩ noFaults).2.fontsKey
      "Segoe UI (TrueType)" = some "segoeui.ttf" :=
  ⟨(restore_default_succeeds_without_override ⟨[("Segoe UI (TrueType)", "")], [], none⟩ rfl).1,
   (restore_default_succeeds_without_override ⟨[("Segoe UI (TrueType)", "")], [], none⟩ rfl).2.2.1
     ("Segoe UI (TrueType)", "segoeui.ttf") (by decide)⟩


/-- The failure contract of the claim: a false flag; an actionable
elevation message when the exception was a `PermissionError`; otherwise the
exception's description embedded in the message. -/
def failsGracefully (r : Bool × String) (e : PyExn) : Prop :=
  r.1 = false ∧
  (isPerm e = true → strContains r.2 "Permission denied" = true ∧
                     strContains r.2 "administrator" = true) ∧
  (isPerm e = false → strContains r.2 (pyStr e) = true)

theorem handleExn_spec (ctx : String) (e : PyExn) : failsGracefully (handleExn ctx e) e := by
  cases e with
  | permissionError m =>
      refine ⟨rfl, fun _ => ?_, fun hf => by simp [isPerm] at hf⟩
      have hq : (handleExn ctx (PyExn.permissionError m)).2
          = "Permission denied. Please run as administrator." := rfl
      rw [hq]
      exact ⟨by decide, by decide⟩
  | fileNotFoundError m =>
      exact ⟨rfl, fun ht => by simp [isPerm] at ht, fun _ => strContains_append_right ctx m⟩
  | otherError m =>
      exact ⟨rfl, fun ht => by simp [isPerm] at ht, fun _ => strContains_append_right ctx m⟩

/-- Claim C5: every failing registry open or backup write in `change_font`
and `restore_default_font` is caught inside the method (both are total
functions here): a `PermissionError` produces
`(false, "Permission denied. Please run as administrator.")` and any other
exception produces a false flag with `str(e)` embedded in the message. -/
theorem change_restore_fail_without_raising (f : String) (st : SysState) (e : PyExn) :
    failsGracefully (change_font f st ⟨none, none, none, none, some e⟩).1 e ∧
    failsGracefully (change_font f st ⟨none, some e, none, none, none⟩).1 e ∧
    failsGracefully (change_font f st ⟨none, none, none, some e, none⟩).1 e ∧
    failsGracefully (restore_default_font st ⟨none, some e, none, none, none⟩).1 e ∧
    failsGracefully (restore_default_font st ⟨none, none, none, some e, none⟩).1 e := by
  refine ⟨?_, ?_, ?_, ?_, ?_⟩
  · have hq : (change_font f st ⟨none, none, none, none, some e⟩).1
        = handleExn "Error changing font: " e := rfl
    rw [hq]
    exact handleExn_spec _ e
  · have hq : (change_font f st ⟨none, some e, none, none, none⟩).1
        = handleExn "Error changing font: " e := rfl
    rw [hq]
    exact handleExn_spec _ e
  · have hq : (change_font f st ⟨none, none, none, some e, none⟩).1
        = handleExn "Error changing font: " e := rfl
    rw [hq]
    exact handleExn_spec _ e
  · have hq : (restore_default_font st ⟨none, some e, none, none, none⟩).1
        = handleExn "Error restoring default font: " e := rfl
    rw [hq]
    exact handleExn_spec _ e
  · have hq : (restore_default_font st ⟨none, none, none, some e, none⟩).1
        = handleExn "Error restoring default font: " e := rfl
    rw [hq]
    exact handleExn_spec _ e

/-- Witness for C5 at concrete inputs. -/
theorem change_restore_fail_without_raising_witness :
    strContains
      (change_font "Arial" ⟨[], [], none⟩
        ⟨none, none, none, none, some (PyExn.permissionError "Access is denied")⟩).1.2
      "administrator" = true ∧
    strContains
      (restore_default_font ⟨[], [], none⟩
        ⟨none, some (PyExn.otherError "boom"), none, none, none⟩).1.2
      "boom" = true :=
  ⟨((change_restore_fail_without_raising "Arial" ⟨[], [], none⟩
      (PyExn.permissionError "Access is denied")).1.2.1 rfl).2,
   ((change_restore_fail_without_raising "Arial" ⟨[], [], none⟩
      (PyExn.otherError "boom")).2.2.2.1.2.2 rfl)⟩


/-- Claim C6 counterexample: with an existing but empty-string override, the
backup contains the delete directive, not the line quoting the override
(Python's `if current_font:` treats `""` as falsy). -/
theorem backup_empty_override_dash_counterexample :
    get_current_font ⟨[], [("Segoe UI", "")], none⟩ noFaults = some "" ∧
    "\"Segoe UI\"=\"\"" ∉ backupContent ⟨[], [("Segoe UI", "")], none⟩ noFaults ∧
    "\"Segoe UI\"=-" ∈ backupContent ⟨[], [("Segoe UI", "")], none⟩ noFaults := by
  decide

/-- Claim C6 (amended): the backup document always contains the literal
header line; whenever a NONEMPTY override `f` exists it contains the literal
line quoting `f`; when no override exists — or the override is the empty
string — it contains the delete directive instead. -/
theorem backup_header_and_substitution_lines (st : SysState) (fl : Faults) :
    ("Windows Registry Editor Version 5.00" ∈ backupContent st fl) ∧
    (∀ f, get_current_font st fl = some f → f ≠ "" →
        ("\"Segoe UI\"=\"" ++ f ++ "\"") ∈ backupContent st fl) ∧
    ((get_current_font st fl = none ∨ get_current_font st fl = some "") →
        "\"Segoe UI\"=-" ∈ backupContent st fl) := by
  refine ⟨?_, ?_, ?_⟩
  · simp [backupContent]
  · intro f hf hne
    simp [backupContent, hf, hne]
  · intro hf
    rcases hf with hf | hf <;> simp [backupContent, hf]

/-- Witness for C6 at concrete inputs. -/
theorem backup_header_and_substitution_lines_witness :
    ("\"Segoe UI\"=\"Arial\"" ∈ backupContent ⟨[], [("Segoe UI", "Arial")], none⟩ noFaults) ∧
    ("\"Segoe UI\"=-" ∈ backupContent ⟨[], [], none⟩ noFaults) := by
  constructor
  · have hq := (backup_header_and_substitution_lines
      ⟨[], [("Segoe UI", "Arial")], none⟩ noFaults).2.1 "Arial" (by decide) (by decide)
    simpa using hq
  · exact (backup_header_and_substitution_lines ⟨[], [], none⟩ noFaults).2.2 (Or.inl (by decide))

/-- Claim C7: `create_reg_file` leaves the whole system state untouched and
produces a UTF-16LE document whose lines include the header, a cleared
(empty-string) entry for every `"Segoe UI"`-named mapping, and the
substitution line for the requested font. -/
theorem create_reg_file_pure_and_targets (f : String) (st : SysState) :
    (create_reg_file f st).2 = st ∧
    (create_reg_file f st).1.encoding = "utf-16-le" ∧
    (create_reg_file f st).1.content = String.intercalate "\n" (regFileLines f) ∧
    "Windows Registry Editor Version 5.00" ∈ regFileLines f ∧
    (∀ p ∈ SEGOE_UI_FONTS, strContains p.1 "Segoe UI" = true →
        ("\"" ++ p.1 ++ "\"=\"\"") ∈ regFileLines f) ∧
    ("\"Segoe UI\"=\"" ++ f ++ "\"") ∈ regFileLines f := by
  refine ⟨rfl, rfl, rfl, ?_, ?_, ?_⟩
  · simp [regFileLines]
  · intro p hp hc
    simp only [regFileLines, List.mem_append, List.mem_map]
    exact Or.inl (Or.inr ⟨p, List.mem_filter.mpr ⟨hp, hc⟩, rfl⟩)
  · simp [regFileLines]

/-- Witness for C7 at concrete inputs. -/
theorem create_reg_file_pure_and_targets_witness :
    (create_reg_file "Comic Sans MS" ⟨[], [], none⟩).2 = ⟨[], [], none⟩ ∧
    ("\"Segoe UI (TrueType)\"=\"\"" ∈ regFileLines "Comic Sans MS") ∧
    ("\"Segoe UI\"=\"Comic Sans MS\"" ∈ regFileLines "Comic Sans MS") :=
  ⟨(create_reg_file_pure_and_targets "Comic Sans MS" ⟨[], [], none⟩).1,
   (create_reg_file_pure_and_targets "Comic Sans MS" ⟨[], [], none⟩).2.2.2.2.1
     ("Segoe UI (TrueType)", "segoeui.ttf") (by decide) (by decide),
   (create_reg_file_pure_and_targets "Comic Sans MS" ⟨[], [], none⟩).2.2.2.2.2⟩


/-- Claim C8 counterexample: the static table does not have nineteen
entries. -/
theorem segoe_fonts_not_nineteen : ¬ SEGOE_UI_FONTS.length = 19 := by decide

/-- Claim C8 (amended): the static Font File Mapping Table has exactly
twenty entries, all display names in the Segoe font family (they begin with
"Segoe"); fifteen of them name Segoe UI specifically. -/
theorem segoe_fonts_twenty_segoe_family :
    SEGOE_UI_FONTS.length = 20 ∧
    SEGOE_UI_FONTS.all (fun p => charsStart p.1.toList "Segoe".toList) = true ∧
    (SEGOE_UI_FONTS.filter (fun p => strContains p.1 "Segoe UI")).length = 15 := by
  decide

/-- Claim C9 counterexample: the value returned on a total registry-open
failure (even with an override present in the store) is the very same
`none` returned when the key opens and the value is explicitly not found —
the two failure modes are not distinguishable at the API level. -/
theorem get_current_font_failures_identical :
    get_current_font ⟨[], [("Segoe UI", "Arial")], none⟩
        ⟨none, none, some (PyExn.otherError "Registry error"), none, none⟩
      = get_current_font ⟨[], [], none⟩ noFaults ∧
    get_current_font ⟨[], [], none⟩ noFaults = none := by
  decide

/-- Claim C9 (amended): both failure modes — open failure and explicit
value-not-found — collapse to the same `none` result; nothing at the API
level tells them apart. -/
theorem get_current_font_none_on_any_failure (st st2 : SysState) (fl fl2 : Faults)
    (h : ∃ e, fl.openSubstRead = some e) (h2 : fl2.openSubstRead = none)
    (h3 : lookupValue st2.substKey "Segoe UI" = none) :
    get_current_font st fl = none ∧ get_current_font st2 fl2 = none ∧
    get_current_font st fl = get_current_font st2 fl2 := by
  obtain ⟨e, he⟩ := h
  have ha : get_current_font st fl = none := by
    unfold get_current_font
    rw [he]
  have hb : get_current_font st2 fl2 = none := by
    unfold get_current_font
    rw [h2, h3]
  exact ⟨ha, hb, ha.trans hb.symm⟩

/-- Witness for C9 at concrete inputs. -/
theorem get_current_font_none_on_any_failure_witness :
    get_current_font ⟨[], [("Segoe UI", "Arial")], none⟩
        ⟨none, none, some (PyExn.fileNotFoundError "missing key"), none, none⟩ = none ∧
    get_current_font ⟨[], [], none⟩ noFaults = none :=
  ⟨(get_current_font_none_on_any_failure ⟨[], [("Segoe UI", "Arial")], none⟩ ⟨[], [], none⟩
      ⟨none, none, some (PyExn.fileNotFoundError "missing key"), none, none⟩ noFaults
      ⟨PyExn.fileNotFoundError "missing key", rfl⟩ rfl rfl).1,
   (get_current_font_none_on_any_failure ⟨[], [("Segoe UI", "Arial")], none⟩ ⟨[], [], none⟩
      ⟨none, none, some (PyExn.fileNotFoundError "missing key"), none, none⟩ noFaults
      ⟨PyExn.fileNotFoundError "missing key", rfl⟩ rfl rfl).2.1⟩

/-- Number of double-quote characters in a string. -/
def quoteCount (s : String) : Nat := s.toList.count '"'

theorem quoteCount_append (a b : String) :
    quoteCount (a ++ b) = quoteCount a + quoteCount b := by
  unfold quoteCount
  have hq : (a ++ b).toList = a.toList ++ b.toList := by
    simp [String.toList, String.data_append]
  rw [hq, List.count_append]

/-- Claim C10: no validation or escaping of the font name anywhere: for any
string `f` (empty or quote-bearing included) `change_font` reports success
and stores `f` verbatim as the substitution value, and `create_reg_file`
splices `f` unescaped between the quotes of its substitution line, so that
line carries `4 + (number of quotes in f)` quote characters — unbalanced as
soon as `f` contains a quote. -/
theorem font_name_embedded_verbatim (f : String) (st : SysState) :
    (change_font f st noFaults).1.1 = true ∧
    lookupValue (change_font f st noFaults).2.substKey "Segoe UI" = some f ∧
    ("\"Segoe UI\"=\"" ++ f ++ "\"") ∈ regFileLines f ∧
    quoteCount ("\"Segoe UI\"=\"" ++ f ++ "\"") = 4 + quoteCount f ∧
    (0 < quoteCount f → quoteCount ("\"Segoe UI\"=\"" ++ f ++ "\"") ≠ 4) := by
  have hcount : quoteCount ("\"Segoe UI\"=\"" ++ f ++ "\"") = 4 + quoteCount f := by
    rw [quoteCount_append, quoteCount_append]
    have h1 : quoteCount "\"Segoe UI\"=\"" = 3 := by decide
    have h2 : quoteCount "\"" = 1 := by decide
    rw [h1, h2]
    omega
  refine ⟨?_, ?_, ?_, hcount, ?_⟩
  · rw [change_font_noFaults_eq]
  · rw [change_font_noFaults_eq]
    simpa using lookupValue_setValue_self st.substKey "Segoe UI" f
  · simp [regFileLines]
  · intro h
    rw [hcount]
    omega

/-- Witness for C10 at concrete inputs. -/
theorem font_name_embedded_verbatim_witness :
    (change_font "" ⟨[], [], none⟩ noFaults).1.1 = true ∧
    quoteCount ("\"Segoe UI\"=\"" ++ "Evil\" Font" ++ "\"") ≠ 4 :=
  ⟨(font_name_embedded_verbatim "" ⟨[], [], none⟩).1,
   (font_name_embedded_verbatim "Evil\" Font" ⟨[], [], none⟩).2.2.2.2 (by decide)⟩

end FontChanger
